import Mathlib

/-!
Shallow embedding of `otp-runner` (`src/lib/index.js`), the pipeline
orchestrator that downloads inputs, builds an OTP graph, starts an OTP
server and uploads artifacts.  The definitions below are translated
directly from the source; JavaScript truthiness is modelled explicitly
where the source relies on it (empty string and `0` are falsy).
Effectful statements (file writes, S3 invocations, process control) are
modelled as explicit action traces or `Except` results.
-/

namespace OtpRunner

/-- The mutable status record created in the `OtpRunner` constructor
(`src/lib/index.js` lines 35-44).  `pctProgress` is a JS number; it is
modelled as a rational because download progress is a non-integral
fraction. -/
structure Status where
  error : Bool
  graphBuilt : Bool
  graphUploaded : Bool
  serverStarted : Bool
  message : String
  numFilesDownloaded : ℕ
  pctProgress : ℚ
  totalFilesToDownload : ℕ
  deriving DecidableEq, Repr

/-- Initial status from the constructor (lines 35-44), including the
source spelling of the initial message. -/
def initialStatus : Status :=
  { error := false
    graphBuilt := false
    graphUploaded := false
    serverStarted := false
    message := "Inintializing..."
    numFilesDownloaded := 0
    pctProgress := 0
    totalFilesToDownload := 0 }

/-- `updateStatus(message, pctProgress)` (lines 89-112), restricted to its
effect on the status record (the trailing status-file write is pure
output).  JS truthiness: a message argument of `undefined` or `""` is
falsy and skipped; a `pctProgress` of `undefined` or `0` is falsy and
skipped.  The message is only written when no error has occurred
(lines 96-98); the percentage is written unconditionally (lines 100-102). -/
def updateStatus (message : Option String) (pctProgress : Option ℚ) (s : Status) : Status :=
  let s1 :=
    match message with
    | some m =>
      if m ≠ "" ∧ m ≠ s.message then
        if s.error = false then { s with message := m } else s
      else s
    | none => s
  match pctProgress with
  | some p => if p ≠ 0 then { s1 with pctProgress := p } else s1
  | none => s1

/-- `fail(message)` (lines 69-80), restricted to its effect on the status
record: it unconditionally sets `error` and overwrites `message`
(lines 71-72), then uploads logs, persists the status and throws. -/
def fail (message : String) (s : Status) : Status :=
  { s with error := true, message := message }

/-- One observable status mutation: either an `updateStatus` call or a
`fail` call. -/
inductive Call where
  | update (message : Option String) (pctProgress : Option ℚ)
  | failCall (message : String)
  deriving DecidableEq, Repr

/-- Apply one call to the status record. -/
def applyCall (s : Status) : Call → Status
  | .update m p => updateStatus m p s
  | .failCall m => fail m s

/-- Apply a sequence of calls in order. -/
def applyCalls (s : Status) : List Call → Status
  | [] => s
  | c :: cs => applyCalls (applyCall s c) cs

/-- Recognizer for `updateStatus` calls. -/
def Call.isUpdate : Call → Bool
  | .update _ _ => true
  | .failCall _ => false

/-! ### Progress schedule (code side)

Constants appearing in the `updateStatus` calls of `makeDownloadTask`
(lines 136-154), `buildGraph` (lines 377-380 and 439-442), `startServer`
(lines 488-491 and 585) and `uploadGraphObj` (line 657). -/

/-- `downloadProgressComponent` from `makeDownloadTask` (lines 136-149). -/
def downloadProgressComponent (buildGraph runServer : Bool) : ℚ :=
  if buildGraph && runServer then 20
  else if buildGraph then 40
  else 30

/-- The percentage passed to `updateStatus` by `makeDownloadTask`
(line 153): `10 + downloadProgressComponent * numFilesDownloaded /
totalFilesToDownload`. -/
def downloadPct (buildGraph runServer : Bool) (numFilesDownloaded totalFilesToDownload : ℕ) : ℚ :=
  10 + downloadProgressComponent buildGraph runServer
    * numFilesDownloaded / totalFilesToDownload

/-- Build-start percentage, `this.manifest.runServer ? 30 : 50` (line 379). -/
def buildStartPct (runServer : Bool) : ℚ := if runServer then 30 else 50

/-- Build-done percentage, `this.manifest.runServer ? 70 : 90` (line 441). -/
def buildDonePct (runServer : Bool) : ℚ := if runServer then 70 else 90

/-- Serve-start percentage, `this.manifest.buildGraph ? 70 : 40` (line 490). -/
def serveStartPct (buildGraph : Bool) : ℚ := if buildGraph then 70 else 40

/-- Serve-done percentage, the literal `90` of line 585. -/
def serveDonePct : ℚ := 90

/-- Graph-upload-done percentage, `this.manifest.runServer ? 80 : 100`
(line 657). -/
def graphUploadDonePct (runServer : Bool) : ℚ := if runServer then 80 else 100

/-! ### Status pipeline pieces (code side) -/

/-- The status mutation performed by `downloadFiles` just before the
downloads start (lines 347-351): record the task count and report 10%. -/
def downloadFilesStart (total : ℕ) (s : Status) : Status :=
  updateStatus
    (some ("Downloading " ++ toString total ++ " files..."))
    (some 10)
    { s with totalFilesToDownload := total }

/-- The per-file tail of `makeDownloadTask` (lines 128-154): increment
`numFilesDownloaded`, then call `updateStatus` with the download message
and the weighted percentage.  There is no suspension point between the
increment and the percentage write, so on the event loop the pair is
atomic. -/
def downloadStep (buildGraph runServer : Bool) (url : String) (s : Status) : Status :=
  let s1 := { s with numFilesDownloaded := s.numFilesDownloaded + 1 }
  updateStatus
    (some ("Downloaded " ++ url ++ " (" ++ toString s1.numFilesDownloaded
      ++ " / " ++ toString s1.totalFilesToDownload ++ " files)"))
    (some (downloadPct buildGraph runServer s1.numFilesDownloaded s1.totalFilesToDownload))
    s1

/-- `k` sequential completions of `makeDownloadTask`. -/
def iterateDownloads (buildGraph runServer : Bool) (url : String) : ℕ → Status → Status
  | 0, s => s
  | k + 1, s => downloadStep buildGraph runServer url
      (iterateDownloads buildGraph runServer url k s)

/-- The `updateStatus` call at the top of `buildGraph` (lines 377-380). -/
def buildGraphStartUpdate (runServer : Bool) (s : Status) : Status :=
  updateStatus (some "Building graph") (some (buildStartPct runServer)) s

/-- The `updateStatus` call after a successful build (lines 437-442),
including the `graphBuilt` flag write. -/
def buildGraphDoneUpdate (runServer : Bool) (s : Status) : Status :=
  updateStatus (some "Graph built successfully!") (some (buildDonePct runServer))
    { s with graphBuilt := true }

/-- The `updateStatus` call at the top of `startServer` (lines 488-491). -/
def startServerBeginUpdate (buildGraph : Bool) (s : Status) : Status :=
  updateStatus (some "Starting OTP server") (some (serveStartPct buildGraph)) s

/-- The `updateStatus` call after the server is up (lines 582-585),
including the `serverStarted` flag write. -/
def startServerDoneUpdate (s : Status) : Status :=
  updateStatus (some "Server successfully started!") (some serveDonePct)
    { s with serverStarted := true }

/-- The `updateStatus` call after a successful graph upload
(lines 655-657), including the `graphUploaded` flag write. -/
def uploadGraphDoneUpdate (runServer : Bool) (s : Status) : Status :=
  updateStatus (some "Graph uploaded!") (some (graphUploadDonePct runServer))
    { s with graphUploaded := true }

/-! ### Progress schedule (spec side)

The schedule exactly as the specification states it (§4.2): the download
sub-range starts at 10 and has width 20 (build and serve), 40 (build
only) or 30 (serve only); fixed checkpoints follow. -/

/-- Spec §4.2 download sub-range width. -/
def specDownloadWidth (buildGraph runServer : Bool) : ℚ :=
  if buildGraph ∧ runServer then 20
  else if buildGraph ∧ ¬runServer then 40
  else 30

/-- Spec §4.2 progress after `k` of `n` downloads: `10 + width * k / n`. -/
def specDownloadPct (buildGraph runServer : Bool) (k n : ℕ) : ℚ :=
  10 + specDownloadWidth buildGraph runServer * k / n

/-- Spec §4.2 build-start checkpoint: 30 when serve is enabled, else 50. -/
def specBuildStartPct (runServer : Bool) : ℚ := if runServer then 30 else 50

/-- Spec §4.2 build-done checkpoint: 70 when serve is enabled, else 90. -/
def specBuildDonePct (runServer : Bool) : ℚ := if runServer then 70 else 90

/-- Spec §4.2 serve-start checkpoint: 70 when build is enabled, else 40. -/
def specServeStartPct (buildGraph : Bool) : ℚ := if buildGraph then 70 else 40

/-- Spec §4.2 serve-done checkpoint: 90. -/
def specServeDonePct : ℚ := 90

/-- Spec §4.2 graph-upload-done checkpoint: 80 when serve is enabled,
else 100. -/
def specGraphUploadDonePct (runServer : Bool) : ℚ := if runServer then 80 else 100

/-! ### Recorded progress traces and post-build interleavings

On a successful run the orchestrator (`run`, lines 734-746) performs
`downloadFiles`, then `buildGraph`, then `runPostBuildTasks`.  The
percentage writes below are exactly the `updateStatus` calls that carry a
(truthy) percentage; calls without a percentage leave `pctProgress`
untouched (lines 100-102).  The post-build tasks (`startServer` and the
upload tasks queued at lines 446-449) run concurrently under
`Promise.all`, so the order of their percentage writes is an arbitrary
interleaving of the per-task orders. -/

/-- Percentage writes of the download phase (lines 347-355): the initial
10, then `10 + w * k / n` as each of the `n` downloads completes.
Written as a map over `0..n` — the `k = 0` entry evaluates to the initial
10. -/
def downloadTrace (buildGraph runServer : Bool) (n : ℕ) : List ℚ :=
  (List.range (n + 1)).map (fun k => downloadPct buildGraph runServer k n)

/-- Percentage writes of `buildGraph` on success (lines 377-380 and
439-442); the `Building graph...` poll updates of line 427 carry no
percentage.  Empty when the build phase is disabled (line 375). -/
def buildTrace (buildGraph runServer : Bool) : List ℚ :=
  if buildGraph then [buildStartPct runServer, buildDonePct runServer] else []

/-- Percentage writes of `startServer` on success (lines 488-491 and
585), in program order within the task. -/
def serveTaskTrace (buildGraph : Bool) : List ℚ :=
  [serveStartPct buildGraph, serveDonePct]

/-- Percentage writes of `uploadGraphObj` on success (line 657).  This
task only exists when a build ran (it is queued at line 446) and
`uploadGraph` is set (line 648). -/
def uploadTaskTrace (runServer : Bool) : List ℚ :=
  [graphUploadDonePct runServer]

/-- Fuel-driven worker for `merges` (structural recursion on the fuel so
that the kernel can evaluate it). -/
def mergesAux : ℕ → List ℚ → List ℚ → List (List ℚ)
  | 0, xs, ys => [xs ++ ys]
  | _ + 1, [], ys => [ys]
  | _ + 1, x :: xs, [] => [x :: xs]
  | fuel + 1, x :: xs, y :: ys =>
      (mergesAux fuel xs (y :: ys)).map (fun l => x :: l)
        ++ (mergesAux fuel (x :: xs) ys).map (fun l => y :: l)

/-- All interleavings of two sequences that preserve each per-sequence
internal order. -/
def merges (xs ys : List ℚ) : List (List ℚ) :=
  mergesAux (xs.length + ys.length) xs ys

/-- The possible orders of the concurrent post-build percentage writes:
the serve task (when `runServer`) interleaved with the graph-upload task
(when the build ran and `uploadGraph` is set). -/
def postBuildMerges (buildGraph runServer uploadGraph : Bool) : List (List ℚ) :=
  merges (if runServer then serveTaskTrace buildGraph else [])
    (if buildGraph && uploadGraph then uploadTaskTrace runServer else [])

/-- The full sequence of recorded `pctProgress` values on an error-free
run with `n` download tasks, for one interleaving `m` of the post-build
tasks. -/
def runTrace (buildGraph runServer : Bool) (n : ℕ) (m : List ℚ) : List ℚ :=
  downloadTrace buildGraph runServer n ++ buildTrace buildGraph runServer ++ m

/-! ### String search (`String.prototype.includes`) -/

/-- `pat` occurs at the start of `s`. -/
def charsLeadWith : List Char → List Char → Bool
  | [], _ => true
  | _ :: _, [] => false
  | p :: ps, c :: cs => p == c && charsLeadWith ps cs

/-- `pat` occurs somewhere in `s`. -/
def charsContain : List Char → List Char → Bool
  | s, pat =>
    match s with
    | [] => charsLeadWith pat []
    | _ :: rest => charsLeadWith pat s || charsContain rest pat

/-- JavaScript `s.includes(pat)`. -/
def stringIncludes (s pat : String) : Bool :=
  charsContain s.toList pat.toList

/-- An ASCII apostrophe, written via its code point. -/
def apos : String := String.singleton (Char.ofNat 39)

/-! ### Serve supervision (`startServer`, lines 515-586) -/

/-- The listening marker of line 538. -/
def listeningMarker : String := "Grizzly server running"

/-- The graph-loaded marker of lines 542-548, which varies with the
engine major version. -/
def graphReadMarker (isOtp2 : Bool) : String :=
  if isOtp2 then "Graph read." else "Main graph read."

/-- The router-registration-failure marker of lines 552-556. -/
def registerFailMarker (routerName : String) : String :=
  "Can" ++ apos ++ "t register router ID " ++ apos ++ routerName ++ apos ++ ", no graph."

/-- One observation of the supervised server process: its exit code as
seen at the top of the poll body (line 520) and the full server log file
contents read after the one-second wait (lines 533-536), together with
the elapsed wall-clock milliseconds at the timeout check (line 568). -/
structure Tick where
  exitCode : Option ℤ
  logData : String
  elapsedMs : ℕ
  deriving Repr

/-- Terminal outcomes of the serve supervision loop. -/
inductive ServeOutcome where
  | success
  | exitFail (code : ℤ)
  | registerFail
  | timeoutFail
  deriving DecidableEq, Repr

/-- Observable actions performed by the serve supervision loop. -/
inductive ServeAction where
  | killProc
  | uploadServerLogsAct
  | failAct (message : String)
  | serveDoneUpdate
  deriving DecidableEq, Repr

/-- The poll loop of `startServer` (lines 515-586).  The loop runs while
`!foundSuccessfulServerStartMessage || !graphRead` (line 518); each tick
checks the exit code (lines 520-527), re-reads the log file, updates the
two marker flags (lines 538-550), fails on the router-registration
marker (lines 552-564), and finally fails on timeout (lines 567-578).
On exit from the loop the logs are uploaded, `serverStarted` is set and
the status is updated (lines 581-585).  The tick list supplies the
observations; `none` means the loop was still polling when the supplied
observations ran out. -/
def superviseServer (isOtp2 : Bool) (routerName : String) (timeoutSec : ℕ) :
    List Tick → Bool → Bool → Option ServeOutcome × List ServeAction
  | ticks, found, graphRead =>
    if found && graphRead then
      (some .success, [.uploadServerLogsAct, .serveDoneUpdate])
    else
      match ticks with
      | [] => (none, [])
      | t :: rest =>
        match t.exitCode with
        | some c =>
          (some (.exitFail c),
            [.uploadServerLogsAct,
              .failAct ("Server failed to start and exited with code " ++ toString c)])
        | none =>
          let found2 := found || stringIncludes t.logData listeningMarker
          let graphRead2 := graphRead || stringIncludes t.logData (graphReadMarker isOtp2)
          if stringIncludes t.logData (registerFailMarker routerName) then
            (some .registerFail,
              [.killProc, .uploadServerLogsAct,
                .failAct "An error occurred while trying to start the OTP Server!"])
          else if timeoutSec * 1000 < t.elapsedMs then
            (some .timeoutFail,
              [.killProc, .uploadServerLogsAct,
                .failAct ("Server took longer than " ++ toString timeoutSec
                  ++ " seconds to start!")])
          else superviseServer isOtp2 routerName timeoutSec rest found2 graphRead2

/-! ### Manifest and validation (`validateManifest`, lines 182-267) -/

/-- The manifest fields consulted by the embedded fragments.  Optional
JSON fields are `Option`s; absent arrays are the empty list (both
`undefined` and a zero-length array fail the
`x && x.length` truthiness tests of lines 213-215). -/
structure Manifest where
  buildGraph : Bool
  runServer : Bool
  baseFolderDownloads : List String
  gtfsDownloads : List String
  graphObjUrl : Option String
  uploadGraph : Bool
  s3UploadPath : Option String
  uploadGraphBuildLogs : Bool
  uploadGraphBuildReport : Bool
  uploadOtpRunnerLogs : Bool
  uploadServerStartupLogs : Bool
  routerName : String
  otpVersion : String
  serverStartupTimeoutSeconds : ℕ
  deriving DecidableEq, Repr

/-- `new URL(u).protocol === s3-colon` (line 230): the URL scheme,
lower-cased by the URL parser, is `s3`. -/
def isS3Url (u : String) : Bool :=
  charsLeadWith ("s3:".toList) (u.toList.map Char.toLower)

/-- The error message pushed per mandatory-upload-path key (line 246). -/
def s3UploadPathError (key : String) : String :=
  "`s3UploadPath` must be defined if `" ++ key ++ "` is set to true"

/-- The upload-flag keys of the manifest iterated at lines 238-254, with
`uploadGraph` excluded (line 243), paired with their values.  The source
iterates `Object.keys(this.manifest)`; the embedding fixes the canonical
field order of the manifest schema. -/
def uploadFlagEntries (m : Manifest) : List (String × Bool) :=
  [("uploadGraphBuildLogs", m.uploadGraphBuildLogs),
   ("uploadGraphBuildReport", m.uploadGraphBuildReport),
   ("uploadOtpRunnerLogs", m.uploadOtpRunnerLogs),
   ("uploadServerStartupLogs", m.uploadServerStartupLogs)]

/-- The cross-field errors accumulated at lines 203-255, in push order. -/
def crossFieldErrors (m : Manifest) : List String :=
  (if !m.buildGraph && !m.runServer then
    ["At least one of `buildGraph` or `runServer` must be set to true"]
  else []) ++
  (if m.buildGraph && !(!m.baseFolderDownloads.isEmpty || !m.gtfsDownloads.isEmpty) then
    ["`baseFolderDownloads` or `gtfsDownloads` must be populated for graph build (need inputs)"]
  else []) ++
  (if !m.buildGraph && m.graphObjUrl.isNone then
    ["`graphObjUrl` must be defined in run-server-only mode"]
  else []) ++
  (if m.uploadGraph && (m.graphObjUrl.isNone || !(isS3Url (m.graphObjUrl.getD ""))) then
    ["`graphObjUrl` must be an s3 url in order to upload Graph.obj file"]
  else []) ++
  (if m.s3UploadPath.isNone then
    ((uploadFlagEntries m).filter (fun e => e.2)).map (fun e => s3UploadPathError e.1)
  else [])

/-- The side effect of lines 247-252: when `s3UploadPath` is missing and
`uploadOtpRunnerLogs` is set, the flag is forced to `false` so the
`fail` path does not attempt a doomed upload. -/
def validatedManifest (m : Manifest) : Manifest :=
  if m.s3UploadPath.isNone && m.uploadOtpRunnerLogs then
    { m with uploadOtpRunnerLogs := false }
  else m

/-- `Array.prototype.join(sep)`: the elements separated by `sep`. -/
def joinWith (sep : String) : List String → String
  | [] => ""
  | [e] => e
  | e :: rest => e ++ sep ++ joinWith sep rest

/-- `ajv.errorsText` (line 189): the schema violations joined into one
string (ajv joins with a comma-space separator). -/
def errorsText (errs : List String) : String :=
  joinWith ", " errs

/-- The `fail` message of lines 259-261 joining the accumulated
cross-field errors with newlines. -/
def manifestErrorsMessage (errs : List String) : String :=
  "The following errors were found in the manifest.json file:\n\n      "
    ++ joinWith "\n" errs

/-- `validateManifest` (lines 182-267).  The JSON-schema validator is an
external collaborator (`ajv`); its findings are passed in as
`schemaErrors`.  A non-empty `schemaErrors` fails immediately with the
joined schema errors (lines 188-190), before any cross-field check runs;
otherwise the cross-field errors are accumulated and, if any, reported
through one `fail` call (lines 257-262).  The returned manifest carries
the `uploadOtpRunnerLogs` mutation of lines 247-252. -/
def validateManifest (schemaErrors : List String) (m : Manifest) :
    Except String Manifest :=
  if schemaErrors ≠ [] then
    .error (errorsText schemaErrors)
  else
    let m2 := validatedManifest m
    if crossFieldErrors m ≠ [] then .error (manifestErrorsMessage (crossFieldErrors m))
    else .ok m2

/-- A well-formed build-and-serve manifest used to instantiate the
theorems at concrete inputs. -/
def sampleManifest : Manifest :=
  { buildGraph := true
    runServer := true
    baseFolderDownloads := ["https://example.com/osm.pbf"]
    gtfsDownloads := []
    graphObjUrl := some "s3://bucket/Graph.obj"
    uploadGraph := false
    s3UploadPath := some "s3://bucket/uploads"
    uploadGraphBuildLogs := true
    uploadGraphBuildReport := false
    uploadOtpRunnerLogs := false
    uploadServerStartupLogs := false
    routerName := "default"
    otpVersion := "1.x"
    serverStartupTimeoutSeconds := 2 }

/-- A serve-only manifest missing its `graphObjUrl` (one cross-field
violation). -/
def serveOnlyNoGraphManifest : Manifest :=
  { sampleManifest with
    buildGraph := false
    graphObjUrl := none
    uploadGraphBuildLogs := false }

/-- A serve-only manifest missing its `graphObjUrl` while requesting a
graph upload (two cross-field violations). -/
def serveOnlyUploadManifest : Manifest :=
  { serveOnlyNoGraphManifest with uploadGraph := true }

/-- A build-only manifest requesting `uploadOtpRunnerLogs` without an
`s3UploadPath`. -/
def noPathLogsManifest : Manifest :=
  { sampleManifest with
    runServer := false
    s3UploadPath := none
    uploadGraphBuildLogs := false
    uploadOtpRunnerLogs := true }

/-- Whether `uploadOtpRunnerLogs` (lines 714-721) attempts an S3 upload:
it does exactly when the manifest flag is set. -/
def uploadOtpRunnerLogsAttemptsUpload (m : Manifest) : Bool :=
  m.uploadOtpRunnerLogs

/-! ### S3 uploads (lines 616-709) -/

/-- `uploadFileToS3` (lines 616-627): the `aws s3 cp` subprocess result
is passed in as an `Except`; the body catches any error and returns a
boolean instead of throwing. -/
def uploadFileToS3 (awsCpResult : Except String Unit) : Bool :=
  match awsCpResult with
  | .ok _ => true
  | .error _ => false

/-- `uploadGraphObj` (lines 647-662): when `uploadGraph` is set, a
successful upload marks `graphUploaded` and updates the status; a failed
upload calls `fail` (modelled as `Except.error` since `fail` throws). -/
def uploadGraphObj (m : Manifest) (awsCpResult : Except String Unit) (s : Status) :
    Except String Status :=
  if m.uploadGraph then
    if uploadFileToS3 awsCpResult then
      .ok (uploadGraphDoneUpdate m.runServer { s with graphUploaded := true })
    else
      .error "Failed to upload graph!"
  else .ok s

/-- `uploadBuildLogs` (lines 632-639): attempts the upload when the flag
is set and ignores the boolean result, so it never raises.  The payload
records whether an upload was attempted and its result. -/
def uploadBuildLogs (m : Manifest) (awsCpResult : Except String Unit) :
    Except String (Option Bool) :=
  if m.uploadGraphBuildLogs then .ok (some (uploadFileToS3 awsCpResult))
  else .ok none

/-- `uploadGraphBuildReport` (lines 684-709): a missing report or a
failed zip returns early with a warning; otherwise the upload result is
ignored.  It never raises. -/
def uploadGraphBuildReport (m : Manifest) (reportExists : Bool)
    (zipResult : Except String Unit) (awsCpResult : Except String Unit) :
    Except String (Option Bool) :=
  if m.uploadGraphBuildReport then
    if !reportExists then .ok none
    else
      match zipResult with
      | .error _ => .ok none
      | .ok _ => .ok (some (uploadFileToS3 awsCpResult))
  else .ok none

/-! ### Run sequencing around a failed build (`buildGraph` lines 430-436,
`run` lines 734-746) -/

/-- Orchestrator-level events, in invocation order. -/
inductive RunEvent where
  | uploadBuildLogsEv
  | uploadGraphObjEv
  | createAndUploadBundleEv
  | uploadGraphBuildReportEv
  | startServerEv
  | uploadOtpRunnerLogsEv
  | failEv (message : String)
  | exitZeroEv
  deriving DecidableEq, Repr

/-- The build-phase tail of `buildGraph` (lines 430-450) given the build
subprocess exit code: on a nonzero exit the build logs are uploaded
(line 434) and only then is `fail` invoked (line 435); `fail` throws, so
nothing later runs (`false`).  On exit code 0 the four post-build tasks
are invoked in push order (lines 446-449). -/
def buildGraphEvents (m : Manifest) (buildExitCode : ℤ) : List RunEvent × Bool :=
  if !m.buildGraph then ([], true)
  else if 0 < buildExitCode then
    ([.uploadBuildLogsEv, .failEv "Build graph failed! Please see logs."], false)
  else
    ([.uploadGraphObjEv, .uploadBuildLogsEv, .createAndUploadBundleEv,
      .uploadGraphBuildReportEv], true)

/-- The tail of `run` (lines 738-745) from the `buildGraph` call on,
assuming validation, folder setup and downloads succeeded: `buildGraph`,
then `runPostBuildTasks` (which invokes `startServer` when `runServer`,
lines 476-479), then `uploadOtpRunnerLogs` and the explicit
`process.exit(0)`.  A throw from `buildGraph` aborts the rest. -/
def runEventsFromBuild (m : Manifest) (buildExitCode : ℤ) : List RunEvent :=
  let be := buildGraphEvents m buildExitCode
  if be.2 then
    be.1 ++ (if m.runServer then [.startServerEv] else [])
      ++ [.uploadOtpRunnerLogsEv, .exitZeroEv]
  else be.1

/-! ### Build-log ring buffer and the trimmed latest-log fragment
(`buildGraph`, lines 395-428) -/

/-- `new CircularBuffer(100)` (line 396): a bounded line buffer, oldest
entry first, evicting the oldest line on overflow. -/
structure CircBuf where
  data : List String
  deriving DecidableEq, Repr

/-- `push` on the 100-line buffer (line 405). -/
def CircBuf.push (b : CircBuf) (line : String) : CircBuf :=
  if b.data.length < 100 then ⟨b.data ++ [line]⟩
  else ⟨b.data.tail ++ [line]⟩

/-- `size()` (line 419). -/
def CircBuf.size (b : CircBuf) : ℕ := b.data.length

/-- `get(i)` with `get(size()-1)` the most recent entry (line 422). -/
def CircBuf.get (b : CircBuf) (i : ℕ) : String := b.data.getD i ""

/-- Largest index of `c` in `l`, if any. -/
def lastIdxOf (c : Char) (l : List Char) : Option ℕ :=
  (List.findIdx? (fun d => d == c) l.reverse).map (fun j => l.length - 1 - j)

/-- `^\d\d:\d\d:` — the fixed six-character timestamp head. -/
def hasTimeHeader : List Char → Bool
  | d1 :: d2 :: c1 :: d3 :: d4 :: c2 :: _ =>
      d1.isDigit && d2.isDigit && c1 == ':' && d3.isDigit && d4.isDigit && c2 == ':'
  | _ => false

/-- Length of the leading whitespace run. -/
def wsRunLength : List Char → ℕ
  | [] => 0
  | c :: cs => if c.isWhitespace then wsRunLength cs + 1 else 0

/-- The `replace` of line 423 on the character list: strip one leftmost
match of the timestamp-and-class pattern (two digit pairs, a greedy gap,
a parenthesized group, trailing whitespace).  Backtracking-greedy
semantics: the parenthesized group ends at the last `)` of the line and
starts at the last `(` before it; buffer entries are single lines (the
chunks are split on newlines at line 404), so the dot never has to skip
a line break. -/
def stripJavaLogHeaderChars (cs : List Char) : List Char :=
  if hasTimeHeader cs then
    match lastIdxOf ')' cs with
    | none => cs
    | some j =>
      match lastIdxOf '(' (cs.take j) with
      | none => cs
      | some i =>
        if 6 ≤ i then
          let afterParen := cs.drop (j + 1)
          afterParen.drop (wsRunLength afterParen)
        else cs
  else cs

/-- String version of the header strip. -/
def stripJavaLogHeader (s : String) : String :=
  String.mk (stripJavaLogHeaderChars s.toList)

/-- JavaScript `substring(0, n)` (line 424). -/
def strTake (s : String) (n : ℕ) : String :=
  String.mk (s.toList.take n)

/-- The `lastLog` fragment of lines 419-426: empty unless the ring
buffer holds more than one line, otherwise the most recent entry with
the timestamp-and-class pattern stripped and truncated to 60
characters. -/
def latestBuildLogFragment (b : CircBuf) : String :=
  if b.size > 1 then strTake (stripJavaLogHeader (b.get (b.size - 1))) 60
  else ""

/-! ## Basic lemmas about `updateStatus` -/

lemma updateStatus_numFilesDownloaded (m : Option String) (p : Option ℚ) (s : Status) :
    (updateStatus m p s).numFilesDownloaded = s.numFilesDownloaded := by
  unfold updateStatus
  cases m <;> cases p <;> dsimp only <;> split_ifs <;> rfl

lemma updateStatus_totalFilesToDownload (m : Option String) (p : Option ℚ) (s : Status) :
    (updateStatus m p s).totalFilesToDownload = s.totalFilesToDownload := by
  unfold updateStatus
  cases m <;> cases p <;> dsimp only <;> split_ifs <;> rfl

lemma updateStatus_error (m : Option String) (p : Option ℚ) (s : Status) :
    (updateStatus m p s).error = s.error := by
  unfold updateStatus
  cases m <;> cases p <;> dsimp only <;> split_ifs <;> rfl

lemma updateStatus_pct (m : Option String) (p : ℚ) (hp : p ≠ 0) (s : Status) :
    (updateStatus m (some p) s).pctProgress = p := by
  unfold updateStatus
  cases m <;> dsimp only <;> split_ifs <;> simp_all

lemma updateStatus_message_of_error (m : Option String) (p : Option ℚ) (s : Status)
    (h : s.error = true) : (updateStatus m p s).message = s.message := by
  unfold updateStatus
  cases m <;> cases p <;> dsimp only <;> split_ifs <;> simp_all

/-! ## C1: the weighted progress schedule -/

lemma downloadWidth_eq_spec (bg rs : Bool) :
    downloadProgressComponent bg rs = specDownloadWidth bg rs := by
  cases bg <;> cases rs <;> decide

lemma downloadPct_pos (bg rs : Bool) (k n : ℕ) : 0 < downloadPct bg rs k n := by
  have hw : (0 : ℚ) ≤ downloadProgressComponent bg rs := by
    cases bg <;> cases rs <;> norm_num [downloadProgressComponent]
  have h2 : (0 : ℚ) ≤ downloadProgressComponent bg rs * k / n :=
    div_nonneg (mul_nonneg hw (Nat.cast_nonneg k)) (Nat.cast_nonneg n)
  unfold downloadPct
  linarith

lemma iterateDownloads_fields (bg rs : Bool) (url : String) (n : ℕ) (s : Status)
    (hnum : s.numFilesDownloaded = 0) : ∀ k : ℕ,
    (iterateDownloads bg rs url k (downloadFilesStart n s)).numFilesDownloaded = k ∧
    (iterateDownloads bg rs url k (downloadFilesStart n s)).totalFilesToDownload = n ∧
    (iterateDownloads bg rs url k (downloadFilesStart n s)).pctProgress
      = downloadPct bg rs k n := by
  intro k
  induction k with
  | zero =>
    refine ⟨?_, ?_, ?_⟩
    · rw [iterateDownloads, downloadFilesStart, updateStatus_numFilesDownloaded]
      exact hnum
    · rw [iterateDownloads, downloadFilesStart, updateStatus_totalFilesToDownload]
    · rw [iterateDownloads, downloadFilesStart,
        updateStatus_pct _ _ (by norm_num)]
      simp [downloadPct]
  | succ k ih =>
    obtain ⟨h1, h2, _⟩ := ih
    refine ⟨?_, ?_, ?_⟩
    · rw [iterateDownloads, downloadStep, updateStatus_numFilesDownloaded]
      simpa using h1
    · rw [iterateDownloads, downloadStep, updateStatus_totalFilesToDownload]
      simpa using h2
    · rw [iterateDownloads, downloadStep,
        updateStatus_pct _ _ (ne_of_gt (downloadPct_pos bg rs _ _))]
      simp [h1, h2]

/-- C1.  For every enabled-phase combination, the recorded `pctProgress`
matches the fixed weighted schedule of spec §4.2: after the `k`-th of
`n` downloads completes it equals `10 + w * k / n` with `w` determined
by the enabled phases, and the build-start, build-done, serve-start,
serve-done and graph-upload-done milestones carry exactly the spec
checkpoint values. -/
theorem progressSchedule_matches_spec (bg rs : Bool) (url : String) (k n : ℕ)
    (hn : 0 < n) (s s' : Status) (hnum : s.numFilesDownloaded = 0) :
    (iterateDownloads bg rs url k (downloadFilesStart n s)).pctProgress
        = specDownloadPct bg rs k n ∧
    (buildGraphStartUpdate rs s').pctProgress = specBuildStartPct rs ∧
    (buildGraphDoneUpdate rs s').pctProgress = specBuildDonePct rs ∧
    (startServerBeginUpdate bg s').pctProgress = specServeStartPct bg ∧
    (startServerDoneUpdate s').pctProgress = specServeDonePct ∧
    (uploadGraphDoneUpdate rs s').pctProgress = specGraphUploadDonePct rs := by
  refine ⟨?_, ?_, ?_, ?_, ?_, ?_⟩
  · rw [(iterateDownloads_fields bg rs url n s hnum k).2.2]
    unfold downloadPct specDownloadPct
    rw [downloadWidth_eq_spec]
  · rw [buildGraphStartUpdate,
      updateStatus_pct _ _ (by cases rs <;> norm_num [buildStartPct])]
    cases rs <;> rfl
  · rw [buildGraphDoneUpdate,
      updateStatus_pct _ _ (by cases rs <;> norm_num [buildDonePct])]
    cases rs <;> rfl
  · rw [startServerBeginUpdate,
      updateStatus_pct _ _ (by cases bg <;> norm_num [serveStartPct])]
    cases bg <;> rfl
  · rw [startServerDoneUpdate, updateStatus_pct _ _ (by norm_num [serveDonePct])]
    rfl
  · rw [uploadGraphDoneUpdate,
      updateStatus_pct _ _ (by cases rs <;> norm_num [graphUploadDonePct])]
    cases rs <;> rfl

/-- Witness for C1 at a concrete input (build+serve, second of two
downloads: 10 + 20 * 2 / 2 = 30). -/
theorem progressSchedule_matches_spec_witness :
    ((0 : ℕ) < 2 ∧ initialStatus.numFilesDownloaded = 0) ∧
    ((iterateDownloads true true "s3://bucket/otp.jar" 2
        (downloadFilesStart 2 initialStatus)).pctProgress
        = specDownloadPct true true 2 2 ∧
      (buildGraphStartUpdate true initialStatus).pctProgress = specBuildStartPct true ∧
      (buildGraphDoneUpdate true initialStatus).pctProgress = specBuildDonePct true ∧
      (startServerBeginUpdate true initialStatus).pctProgress = specServeStartPct true ∧
      (startServerDoneUpdate initialStatus).pctProgress = specServeDonePct ∧
      (uploadGraphDoneUpdate true initialStatus).pctProgress
        = specGraphUploadDonePct true) :=
  ⟨⟨by norm_num, rfl⟩,
    progressSchedule_matches_spec true true "s3://bucket/otp.jar" 2 2 (by norm_num)
      initialStatus initialStatus rfl⟩

/-! ## C2: the message freeze after an error -/

/-- C2 counterexample.  The claim says that once `status.error` is true
no subsequent call — including a second `fail` — changes
`status.message`.  But `fail` (lines 71-72) overwrites the message
unconditionally, so a second `fail` call replaces the frozen message. -/
theorem secondFail_overwritesMessage_counterexample :
    (fail "first failure" initialStatus).error = true ∧
    (applyCalls (fail "first failure" initialStatus)
        [Call.failCall "second failure"]).message
      ≠ (fail "first failure" initialStatus).message := by
  decide

/-- C2 as amended.  Once `status.error` is true, no subsequent
`updateStatus` call changes `status.message` (the guard of lines 96-98);
only another `fail` call can overwrite it. -/
theorem errorFreezesMessage_forUpdateCalls (s : Status) (calls : List Call)
    (herr : s.error = true) (hupd : ∀ c ∈ calls, c.isUpdate = true) :
    (applyCalls s calls).message = s.message := by
  revert herr hupd
  induction calls generalizing s with
  | nil => intro _ _; rfl
  | cons c cs ih =>
    intro herr hupd
    cases c with
    | failCall msg =>
      have h := hupd (.failCall msg) (List.mem_cons_self _ _)
      simp [Call.isUpdate] at h
    | update msg pct =>
      have herr2 : (applyCall s (.update msg pct)).error = true := by
        simpa only [applyCall, updateStatus_error] using herr
      have hmsg : (applyCall s (.update msg pct)).message = s.message :=
        updateStatus_message_of_error msg pct s herr
      calc (applyCalls s (.update msg pct :: cs)).message
          = (applyCalls (applyCall s (.update msg pct)) cs).message := rfl
        _ = (applyCall s (.update msg pct)).message :=
            ih _ herr2 (fun c hc => hupd c (List.mem_cons_of_mem _ hc))
        _ = s.message := hmsg

/-- Witness for the amended C2 at a concrete input. -/
theorem errorFreezesMessage_forUpdateCalls_witness :
    (fail "boom" initialStatus).error = true ∧
    (applyCalls (fail "boom" initialStatus)
        [Call.update (some "later message") (some 50),
          Call.update (some "even later") none]).message
      = (fail "boom" initialStatus).message :=
  ⟨rfl, errorFreezesMessage_forUpdateCalls _ _ rfl (by decide)⟩

/-! ## C3: monotonicity of the recorded progress values -/

lemma chain_mapRange_append (f : ℕ → ℚ) (n : ℕ) (rest : List ℚ)
    (hf : ∀ k, k < n → f k ≤ f (k + 1)) (hrest : List.Chain' (· ≤ ·) rest)
    (hhead : ∀ y ∈ rest.head?, f n ≤ y) :
    List.Chain' (· ≤ ·) ((List.range (n + 1)).map f ++ rest) := by
  induction n generalizing rest with
  | zero =>
    have h1 : List.range 1 = [0] := rfl
    rw [h1]
    simp only [List.map_cons, List.map_nil, List.cons_append, List.nil_append]
    exact List.chain'_cons'.mpr ⟨hhead, hrest⟩
  | succ n ih =>
    have hrw : (List.range (n + 1 + 1)).map f ++ rest
        = (List.range (n + 1)).map f ++ (f (n + 1) :: rest) := by
      rw [List.range_succ, List.map_append]
      simp
    rw [hrw]
    refine ih (f (n + 1) :: rest) (fun k hk => hf k (Nat.lt_succ_of_lt hk))
      (List.chain'_cons'.mpr ⟨hhead, hrest⟩) ?_
    intro y hy
    simp only [List.head?_cons, Option.mem_def, Option.some.injEq] at hy
    exact hy ▸ hf n (Nat.lt_succ_self n)

lemma downloadPct_mono (bg rs : Bool) (n : ℕ) (hn : 0 < n) (k : ℕ) :
    downloadPct bg rs k n ≤ downloadPct bg rs (k + 1) n := by
  have hw : (0 : ℚ) ≤ downloadProgressComponent bg rs := by
    cases bg <;> cases rs <;> norm_num [downloadProgressComponent]
  have hn' : (0 : ℚ) < n := by exact_mod_cast hn
  have h1 : downloadProgressComponent bg rs * (k : ℚ)
      ≤ downloadProgressComponent bg rs * ((k : ℚ) + 1) :=
    mul_le_mul_of_nonneg_left (by linarith) hw
  have h2 : downloadProgressComponent bg rs * (k : ℚ) / n
      ≤ downloadProgressComponent bg rs * ((k : ℚ) + 1) / n :=
    (div_le_div_right hn').mpr h1
  unfold downloadPct
  push_cast
  linarith

lemma downloadPct_full (bg rs : Bool) (n : ℕ) (hn : 0 < n) :
    downloadPct bg rs n n = 10 + downloadProgressComponent bg rs := by
  unfold downloadPct
  rw [mul_div_assoc, div_self ((Nat.cast_ne_zero (R := ℚ)).mpr hn.ne'), mul_one]

/-- C3 counterexample.  With build, serve and graph upload all enabled,
the post-build tasks run concurrently; the interleaving in which
`uploadGraphObj` finishes after `startServer` records 70, 90 and then 80
— a decreasing step — so the recorded `pctProgress` sequence is not
non-decreasing for every interleaving. -/
theorem pctProgress_monotone_counterexample :
    [serveStartPct true, serveDonePct, graphUploadDonePct true]
      ∈ postBuildMerges true true true ∧
    ¬ List.Chain' (· ≤ ·)
      (runTrace true true 1
        [serveStartPct true, serveDonePct, graphUploadDonePct true]) := by
  constructor
  · exact List.mem_cons_self _ _
  · intro hchain
    have h : runTrace true true 1
        [serveStartPct true, serveDonePct, graphUploadDonePct true]
        = [10, 30, 30, 70, 70, 90, 80] := by
      unfold runTrace downloadTrace buildTrace
      norm_num [serveStartPct, serveDonePct, graphUploadDonePct, buildStartPct,
        buildDonePct, downloadPct, downloadProgressComponent, List.range_succ]
    rw [h] at hchain
    simp only [List.chain'_cons, List.chain'_singleton, and_true] at hchain
    exact absurd hchain.2.2.2.2.2 (by norm_num)

/-- C3 as amended.  On an error-free run the recorded `pctProgress`
sequence is non-decreasing for every enabled-phase combination, except
that when build, serve and graph upload are all enabled the sequence is
non-decreasing only in the interleaving where the graph-upload update
(80) lands between serve-start (70) and serve-done (90). -/
theorem runTrace_monotone (bg rs ug : Bool) (n : ℕ) (hn : 0 < n) (m : List ℚ)
    (hm : m ∈ postBuildMerges bg rs ug)
    (horder : ¬(bg = true ∧ rs = true ∧ ug = true)
      ∨ m = [serveStartPct true, graphUploadDonePct true, serveDonePct]) :
    List.Chain' (· ≤ ·) (runTrace bg rs n m) := by
  have hmono := downloadPct_mono bg rs n hn
  have hfull := downloadPct_full bg rs n hn
  cases bg <;> cases rs <;> cases ug
  case false.false.false =>
    have hpb : postBuildMerges false false false = [[]] := rfl
    rw [hpb, List.mem_singleton] at hm
    subst hm
    unfold runTrace downloadTrace
    rw [List.append_assoc]
    have hr : buildTrace false false ++ ([] : List ℚ) = [] := rfl
    rw [hr]
    refine chain_mapRange_append _ n _ (fun k _ => hmono k) List.chain'_nil ?_
    intro y hy
    simp at hy
  case false.false.true =>
    have hpb : postBuildMerges false false true = [[]] := rfl
    rw [hpb, List.mem_singleton] at hm
    subst hm
    unfold runTrace downloadTrace
    rw [List.append_assoc]
    have hr : buildTrace false false ++ ([] : List ℚ) = [] := rfl
    rw [hr]
    refine chain_mapRange_append _ n _ (fun k _ => hmono k) List.chain'_nil ?_
    intro y hy
    simp at hy
  case false.true.false =>
    have hpb : postBuildMerges false true false = [[40, 90]] := rfl
    rw [hpb, List.mem_singleton] at hm
    subst hm
    unfold runTrace downloadTrace
    rw [List.append_assoc]
    have hr : buildTrace false true ++ [(40 : ℚ), 90] = [40, 90] := rfl
    rw [hr]
    refine chain_mapRange_append _ n _ (fun k _ => hmono k) ?_ ?_
    · simp only [List.chain'_cons, List.chain'_singleton, and_true]
      norm_num
    · intro y hy
      simp only [List.head?_cons, Option.mem_def, Option.some.injEq] at hy
      have hle : downloadPct false true n n ≤ (40 : ℚ) := by
        rw [hfull]
        norm_num [downloadProgressComponent]
      exact le_trans hle (le_of_eq hy)
  case false.true.true =>
    have hpb : postBuildMerges false true true = [[40, 90]] := rfl
    rw [hpb, List.mem_singleton] at hm
    subst hm
    unfold runTrace downloadTrace
    rw [List.append_assoc]
    have hr : buildTrace false true ++ [(40 : ℚ), 90] = [40, 90] := rfl
    rw [hr]
    refine chain_mapRange_append _ n _ (fun k _ => hmono k) ?_ ?_
    · simp only [List.chain'_cons, List.chain'_singleton, and_true]
      norm_num
    · intro y hy
      simp only [List.head?_cons, Option.mem_def, Option.some.injEq] at hy
      have hle : downloadPct false true n n ≤ (40 : ℚ) := by
        rw [hfull]
        norm_num [downloadProgressComponent]
      exact le_trans hle (le_of_eq hy)
  case true.false.false =>
    have hpb : postBuildMerges true false false = [[]] := rfl
    rw [hpb, List.mem_singleton] at hm
    subst hm
    unfold runTrace downloadTrace
    rw [List.append_assoc]
    have hr : buildTrace true false ++ ([] : List ℚ) = [50, 90] := rfl
    rw [hr]
    refine chain_mapRange_append _ n _ (fun k _ => hmono k) ?_ ?_
    · simp only [List.chain'_cons, List.chain'_singleton, and_true]
      norm_num
    · intro y hy
      simp only [List.head?_cons, Option.mem_def, Option.some.injEq] at hy
      have hle : downloadPct true false n n ≤ (50 : ℚ) := by
        rw [hfull]
        norm_num [downloadProgressComponent]
      exact le_trans hle (le_of_eq hy)
  case true.false.true =>
    have hpb : postBuildMerges true false true = [[100]] := rfl
    rw [hpb, List.mem_singleton] at hm
    subst hm
    unfold runTrace downloadTrace
    rw [List.append_assoc]
    have hr : buildTrace true false ++ [(100 : ℚ)] = [50, 90, 100] := rfl
    rw [hr]
    refine chain_mapRange_append _ n _ (fun k _ => hmono k) ?_ ?_
    · simp only [List.chain'_cons, List.chain'_singleton, and_true]
      norm_num
    · intro y hy
      simp only [List.head?_cons, Option.mem_def, Option.some.injEq] at hy
      have hle : downloadPct true false n n ≤ (50 : ℚ) := by
        rw [hfull]
        norm_num [downloadProgressComponent]
      exact le_trans hle (le_of_eq hy)
  case true.true.false =>
    have hpb : postBuildMerges true true false = [[70, 90]] := rfl
    rw [hpb, List.mem_singleton] at hm
    subst hm
    unfold runTrace downloadTrace
    rw [List.append_assoc]
    have hr : buildTrace true true ++ [(70 : ℚ), 90] = [30, 70, 70, 90] := rfl
    rw [hr]
    refine chain_mapRange_append _ n _ (fun k _ => hmono k) ?_ ?_
    · simp only [List.chain'_cons, List.chain'_singleton, and_true]
      norm_num
    · intro y hy
      simp only [List.head?_cons, Option.mem_def, Option.some.injEq] at hy
      have hle : downloadPct true true n n ≤ (30 : ℚ) := by
        rw [hfull]
        norm_num [downloadProgressComponent]
      exact le_trans hle (le_of_eq hy)
  case true.true.true =>
    rcases horder with h | h
    · exact absurd ⟨rfl, rfl, rfl⟩ h
    subst h
    unfold runTrace downloadTrace
    rw [List.append_assoc]
    have hr : buildTrace true true
        ++ [serveStartPct true, graphUploadDonePct true, serveDonePct]
        = [30, 70, 70, 80, 90] := rfl
    rw [hr]
    refine chain_mapRange_append _ n _ (fun k _ => hmono k) ?_ ?_
    · simp only [List.chain'_cons, List.chain'_singleton, and_true]
      norm_num
    · intro y hy
      simp only [List.head?_cons, Option.mem_def, Option.some.injEq] at hy
      have hle : downloadPct true true n n ≤ (30 : ℚ) := by
        rw [hfull]
        norm_num [downloadProgressComponent]
      exact le_trans hle (le_of_eq hy)

/-- Witness for the amended C3 at a concrete input (build+serve without
graph upload, two downloads). -/
theorem runTrace_monotone_witness :
    ((0 : ℕ) < 2 ∧ [serveStartPct true, serveDonePct] ∈ postBuildMerges true true false) ∧
    List.Chain' (· ≤ ·) (runTrace true true 2 [serveStartPct true, serveDonePct]) :=
  ⟨⟨by norm_num, List.mem_cons_self _ _⟩,
    runTrace_monotone true true false 2 (by norm_num) _ (List.mem_cons_self _ _)
      (Or.inl (by simp))⟩

/-! ## C4: serve readiness requires both markers -/

lemma superviseServer_success_flags (i : Bool) (r : String) (tsec : ℕ) :
    ∀ (ticks : List Tick) (found graphRead : Bool),
      (superviseServer i r tsec ticks found graphRead).1 = some .success →
      (found = true ∨ ∃ t ∈ ticks, stringIncludes t.logData listeningMarker = true) ∧
      (graphRead = true ∨ ∃ t ∈ ticks, stringIncludes t.logData (graphReadMarker i) = true) := by
  intro ticks
  induction ticks with
  | nil =>
    intro found graphRead h
    rw [superviseServer] at h
    by_cases hfg : (found && graphRead) = true
    · rcases Bool.and_eq_true found graphRead |>.mp hfg with ⟨h1, h2⟩
      exact ⟨Or.inl h1, Or.inl h2⟩
    · rw [if_neg (by simpa using hfg)] at h
      simp at h
  | cons t rest ih =>
    intro found graphRead h
    rw [superviseServer] at h
    by_cases hfg : (found && graphRead) = true
    · rcases Bool.and_eq_true found graphRead |>.mp hfg with ⟨h1, h2⟩
      exact ⟨Or.inl h1, Or.inl h2⟩
    · rw [if_neg (by simpa using hfg)] at h
      cases hexit : t.exitCode with
      | some c => rw [hexit] at h; simp at h
      | none =>
        rw [hexit] at h
        dsimp only at h
        by_cases hreg : stringIncludes t.logData (registerFailMarker r) = true
        · rw [if_pos hreg] at h; simp at h
        · rw [if_neg hreg] at h
          by_cases htime : tsec * 1000 < t.elapsedMs
          · rw [if_pos htime] at h; simp at h
          · rw [if_neg htime] at h
            have hrec := ih _ _ h
            refine ⟨?_, ?_⟩
            · rcases hrec.1 with h1 | ⟨u, hu, hinc⟩
              · rcases Bool.or_eq_true _ _ |>.mp h1 with h2 | h2
                · exact Or.inl h2
                · exact Or.inr ⟨t, List.mem_cons_self _ _, h2⟩
              · exact Or.inr ⟨u, List.mem_cons_of_mem _ hu, hinc⟩
            · rcases hrec.2 with h1 | ⟨u, hu, hinc⟩
              · rcases Bool.or_eq_true _ _ |>.mp h1 with h2 | h2
                · exact Or.inl h2
                · exact Or.inr ⟨t, List.mem_cons_self _ _, h2⟩
              · exact Or.inr ⟨u, List.mem_cons_of_mem _ hu, hinc⟩

lemma superviseServer_timeout_when_no_graphMarker (i : Bool) (r : String) (tsec : ℕ) :
    ∀ (ticks : List Tick) (found : Bool),
      (∀ t ∈ ticks, stringIncludes t.logData (graphReadMarker i) = false) →
      (∀ t ∈ ticks, t.exitCode = none) →
      (∀ t ∈ ticks, stringIncludes t.logData (registerFailMarker r) = false) →
      (∃ t ∈ ticks, tsec * 1000 < t.elapsedMs) →
      (superviseServer i r tsec ticks found false).1 = some .timeoutFail := by
  intro ticks
  induction ticks with
  | nil =>
    intro found _ _ _ hex
    simp at hex
  | cons t rest ih =>
    intro found hgm hexit hreg hex
    rw [superviseServer]
    rw [if_neg (by simp)]
    rw [hexit t (List.mem_cons_self _ _)]
    dsimp only
    rw [if_neg (by simp [hreg t (List.mem_cons_self _ _)])]
    by_cases htime : tsec * 1000 < t.elapsedMs
    · rw [if_pos htime]
    · rw [if_neg htime]
      have hgr2 : (false || stringIncludes t.logData (graphReadMarker i)) = false := by
        simp [hgm t (List.mem_cons_self _ _)]
      rw [hgr2]
      refine ih _ (fun u hu => hgm u (List.mem_cons_of_mem _ hu))
        (fun u hu => hexit u (List.mem_cons_of_mem _ hu))
        (fun u hu => hreg u (List.mem_cons_of_mem _ hu)) ?_
      rcases hex with ⟨u, hu, hlt⟩
      rcases List.mem_cons.mp hu with h1 | h1
      · exact absurd (h1 ▸ hlt) htime
      · exact ⟨u, h1, hlt⟩

/-- C4.  The serve supervisor declares the server started only when the
server log contained both the listening marker and the version-specific
graph-loaded marker; when the graph-loaded marker never appears before
the timeout (and neither the exit-code nor the router-registration
failure fires), the loop ends in a timeout failure, never in success. -/
theorem serveReadiness_requires_both_markers (i : Bool) (r : String) (tsec : ℕ)
    (ticks : List Tick) :
    ((superviseServer i r tsec ticks false false).1 = some .success →
      (∃ t ∈ ticks, stringIncludes t.logData listeningMarker = true) ∧
      (∃ t ∈ ticks, stringIncludes t.logData (graphReadMarker i) = true)) ∧
    ((∀ t ∈ ticks, stringIncludes t.logData (graphReadMarker i) = false) →
      (∀ t ∈ ticks, t.exitCode = none) →
      (∀ t ∈ ticks, stringIncludes t.logData (registerFailMarker r) = false) →
      (∃ t ∈ ticks, tsec * 1000 < t.elapsedMs) →
      (superviseServer i r tsec ticks false false).1 = some .timeoutFail ∧
        (superviseServer i r tsec ticks false false).1 ≠ some .success) := by
  constructor
  · intro h
    have hres := superviseServer_success_flags i r tsec ticks false false h
    refine ⟨?_, ?_⟩
    · rcases hres.1 with h1 | h1
      · exact absurd h1 (by simp)
      · exact h1
    · rcases hres.2 with h1 | h1
      · exact absurd h1 (by simp)
      · exact h1
  · intro hgm hexit hreg hex
    have hres := superviseServer_timeout_when_no_graphMarker i r tsec ticks false
      hgm hexit hreg hex
    exact ⟨hres, by rw [hres]; simp⟩

/-- Witness for C4: a run with both markers succeeds and has both
markers in its log; a run whose log shows only the listening marker ends
in a timeout failure once the time budget is exceeded. -/
theorem serveReadiness_requires_both_markers_witness :
    ((∃ t ∈ [Tick.mk none "Main graph read. then Grizzly server running." 1000],
        stringIncludes t.logData listeningMarker = true) ∧
      (∃ t ∈ [Tick.mk none "Main graph read. then Grizzly server running." 1000],
        stringIncludes t.logData (graphReadMarker false) = true)) ∧
    ((superviseServer false "default" 2
        [Tick.mk none "Grizzly server running." 1000,
          Tick.mk none "Grizzly server running." 3000] false false).1
      = some .timeoutFail ∧
      (superviseServer false "default" 2
        [Tick.mk none "Grizzly server running." 1000,
          Tick.mk none "Grizzly server running." 3000] false false).1
      ≠ some .success) :=
  ⟨(serveReadiness_requires_both_markers false "default" 2
      [Tick.mk none "Main graph read. then Grizzly server running." 1000]).1
      (by decide),
    (serveReadiness_requires_both_markers false "default" 2
      [Tick.mk none "Grizzly server running." 1000,
        Tick.mk none "Grizzly server running." 3000]).2
      (by decide) (by decide) (by decide) (by decide)⟩

/-! ## C5: router-registration failure pre-empts the timeout -/

/-- C5.  Whenever the router-registration-failure marker appears in a
poll tick log (and the process has not exited), the supervisor kills
the process, uploads the server log and fails in that same tick — the
timeout condition is never evaluated, whatever `elapsedMs` says. -/
theorem registerFailure_preempts_timeout (i : Bool) (r : String) (tsec : ℕ)
    (found graphRead : Bool) (t : Tick) (rest : List Tick)
    (hloop : (found && graphRead) = false)
    (hexit : t.exitCode = none)
    (hreg : stringIncludes t.logData (registerFailMarker r) = true) :
    superviseServer i r tsec (t :: rest) found graphRead
      = (some .registerFail,
          [.killProc, .uploadServerLogsAct,
            .failAct "An error occurred while trying to start the OTP Server!"]) := by
  rw [superviseServer, if_neg (by simp [hloop]), hexit]
  dsimp only
  rw [if_pos hreg]

/-- Witness for C5 at a concrete input whose elapsed time is far past
the configured budget: the register-failure branch still wins. -/
theorem registerFailure_preempts_timeout_witness :
    ((false && false) = false ∧
      (Tick.mk none
        ("22:10 WARN (GraphService.java:185) " ++ registerFailMarker "default")
        999999999 : Tick).exitCode = none ∧
      stringIncludes
        (Tick.mk none
          ("22:10 WARN (GraphService.java:185) " ++ registerFailMarker "default")
          999999999 : Tick).logData (registerFailMarker "default") = true) ∧
    superviseServer false "default" 2
        [Tick.mk none
          ("22:10 WARN (GraphService.java:185) " ++ registerFailMarker "default")
          999999999] false false
      = (some .registerFail,
          [.killProc, .uploadServerLogsAct,
            .failAct "An error occurred while trying to start the OTP Server!"]) :=
  ⟨⟨rfl, rfl, by decide⟩,
    registerFailure_preempts_timeout false "default" 2 false false _ []
      rfl rfl (by decide)⟩

/-! ## C6: a failed build uploads its logs before failing and the serve
phase is never attempted -/

/-- C6.  When the build subprocess exits with a nonzero code, the build
log upload completes before `fail` marks the run failed (lines 434-435,
in that order), and because `fail` throws, `runPostBuildTasks` — and so
`startServer` — never runs, even when `runServer` is set. -/
theorem buildFailure_uploadsLogs_and_skips_server (m : Manifest) (c : ℤ)
    (hbg : m.buildGraph = true) (hc : 0 < c) :
    runEventsFromBuild m c
      = [.uploadBuildLogsEv, .failEv "Build graph failed! Please see logs."] ∧
    RunEvent.startServerEv ∉ runEventsFromBuild m c := by
  have h1 : buildGraphEvents m c
      = ([.uploadBuildLogsEv, .failEv "Build graph failed! Please see logs."], false) := by
    simp [buildGraphEvents, hbg, hc]
  refine ⟨?_, ?_⟩ <;> simp [runEventsFromBuild, h1]

/-- Witness for C6 at a concrete manifest with `runServer := true`. -/
theorem buildFailure_uploadsLogs_and_skips_server_witness :
    (sampleManifest.buildGraph = true ∧ (0 : ℤ) < 1) ∧
    (runEventsFromBuild sampleManifest 1
        = [.uploadBuildLogsEv, .failEv "Build graph failed! Please see logs."] ∧
      RunEvent.startServerEv ∉ runEventsFromBuild sampleManifest 1) :=
  ⟨⟨rfl, by norm_num⟩,
    buildFailure_uploadsLogs_and_skips_server sampleManifest 1 rfl (by norm_num)⟩

/-! ## C7: error aggregation in `validateManifest` -/

lemma charsLeadWith_append (l r : List Char) : charsLeadWith l (l ++ r) = true := by
  induction l with
  | nil => rfl
  | cons c cs ih => simp [charsLeadWith, ih]

lemma charsContain_of_leadWith (s pat : List Char) (h : charsLeadWith pat s = true) :
    charsContain s pat = true := by
  cases s with
  | nil => simpa [charsContain] using h
  | cons c cs => simp [charsContain, h]

lemma charsContain_append_right (a b pat : List Char) (h : charsContain b pat = true) :
    charsContain (a ++ b) pat = true := by
  induction a with
  | nil => simpa using h
  | cons c cs ih => simp [charsContain, ih]

lemma toList_append (a b : String) : (a ++ b).toList = a.toList ++ b.toList := by
  simp [String.toList]

lemma stringIncludes_joinWith (sep : String) (errs : List String) (e : String)
    (he : e ∈ errs) : stringIncludes (joinWith sep errs) e = true := by
  induction errs with
  | nil => cases he
  | cons x rest ih =>
    cases rest with
    | nil =>
      rcases List.mem_singleton.mp he with rfl
      unfold stringIncludes
      have h1 := charsLeadWith_append e.toList []
      rw [List.append_nil] at h1
      exact charsContain_of_leadWith _ _ h1
    | cons y rest2 =>
      rcases List.mem_cons.mp he with rfl | hmem
      · unfold stringIncludes
        have hlist : (joinWith sep (e :: y :: rest2)).toList
            = e.toList ++ (sep.toList ++ (joinWith sep (y :: rest2)).toList) := by
          show ((e ++ sep) ++ joinWith sep (y :: rest2)).toList = _
          rw [toList_append, toList_append, List.append_assoc]
        rw [hlist]
        exact charsContain_of_leadWith _ _ (charsLeadWith_append _ _)
      · unfold stringIncludes
        have hlist : (joinWith sep (x :: y :: rest2)).toList
            = (x ++ sep).toList ++ (joinWith sep (y :: rest2)).toList := by
          show ((x ++ sep) ++ joinWith sep (y :: rest2)).toList = _
          rw [toList_append]
        rw [hlist]
        exact charsContain_append_right _ _ _ (by simpa [stringIncludes] using ih hmem)

/-- C7 counterexample.  The claim says schema violations and cross-field
violations are reported together in a single `fail` message joining
every accumulated error.  But a non-empty schema-error set fails
immediately (lines 188-190) before the cross-field checks run: with one
schema violation and one cross-field violation the reported message
contains only the schema violation. -/
theorem validation_reportsAllTogether_counterexample :
    validateManifest ["data.buildGraph should be boolean"] serveOnlyNoGraphManifest
      = .error "data.buildGraph should be boolean" ∧
    crossFieldErrors serveOnlyNoGraphManifest
      = ["`graphObjUrl` must be defined in run-server-only mode"] ∧
    stringIncludes "data.buildGraph should be boolean"
      "`graphObjUrl` must be defined in run-server-only mode" = false := by
  refine ⟨?_, by decide, by decide⟩
  rw [validateManifest, if_pos (by simp)]
  rfl

/-- C7 as amended.  Violations are aggregated within each group and
reported through a single `fail` call joining every error of that group:
all cross-field violations together when the schema passes, all schema
violations together otherwise.  Schema violations pre-empt the
cross-field checks, so the two groups are never combined. -/
theorem validation_aggregates_errors_perGroup (schemaErrors : List String) (m : Manifest)
    (e : String) :
    (schemaErrors = [] → crossFieldErrors m ≠ [] →
      validateManifest schemaErrors m
          = .error (manifestErrorsMessage (crossFieldErrors m)) ∧
      (e ∈ crossFieldErrors m →
        stringIncludes (manifestErrorsMessage (crossFieldErrors m)) e = true)) ∧
    (schemaErrors ≠ [] →
      validateManifest schemaErrors m = .error (errorsText schemaErrors) ∧
      (e ∈ schemaErrors → stringIncludes (errorsText schemaErrors) e = true)) := by
  constructor
  · intro hs hc
    constructor
    · subst hs
      rw [validateManifest, if_neg (by simp)]
      dsimp only
      rw [if_pos hc]
    · intro he
      unfold manifestErrorsMessage stringIncludes
      rw [toList_append]
      exact charsContain_append_right _ _ _
        (by simpa [stringIncludes] using stringIncludes_joinWith "\n" _ _ he)
  · intro hs
    refine ⟨?_, fun he => stringIncludes_joinWith ", " _ _ he⟩
    rw [validateManifest, if_pos hs]

/-- Witness for the amended C7: a manifest with two cross-field
violations reports both of them in the single joined message. -/
theorem validation_aggregates_errors_perGroup_witness :
    (validateManifest [] serveOnlyUploadManifest
        = .error (manifestErrorsMessage (crossFieldErrors serveOnlyUploadManifest)) ∧
      stringIncludes (manifestErrorsMessage (crossFieldErrors serveOnlyUploadManifest))
        "`graphObjUrl` must be defined in run-server-only mode" = true) ∧
    stringIncludes (manifestErrorsMessage (crossFieldErrors serveOnlyUploadManifest))
      "`graphObjUrl` must be an s3 url in order to upload Graph.obj file" = true :=
  ⟨⟨((validation_aggregates_errors_perGroup [] serveOnlyUploadManifest
        "`graphObjUrl` must be defined in run-server-only mode").1
        rfl (by decide)).1,
      ((validation_aggregates_errors_perGroup [] serveOnlyUploadManifest
        "`graphObjUrl` must be defined in run-server-only mode").1
        rfl (by decide)).2 (by decide)⟩,
    ((validation_aggregates_errors_perGroup [] serveOnlyUploadManifest
        "`graphObjUrl` must be an s3 url in order to upload Graph.obj file").1
        rfl (by decide)).2 (by decide)⟩

/-! ## C8: upload results are booleans; only the graph upload is fatal -/

/-- C8.  `uploadFileToS3` never raises: it returns `true` exactly when
the `aws s3 cp` subprocess succeeded (the catch block of lines 622-626
converts any error into `false`).  A `false` result makes
`uploadGraphObj` fail the run when `uploadGraph` is set (line 659),
while `uploadBuildLogs` and `uploadGraphBuildReport` never raise
whatever the upload result. -/
theorem uploadFailure_policy (m : Manifest) (r rz : Except String Unit)
    (s : Status) (rep : Bool) :
    (uploadFileToS3 r = true ↔ r = .ok ()) ∧
    (m.uploadGraph = true → uploadFileToS3 r = false →
      uploadGraphObj m r s = .error "Failed to upload graph!") ∧
    (uploadBuildLogs m r).isOk = true ∧
    (uploadGraphBuildReport m rep rz r).isOk = true := by
  refine ⟨?_, ?_, ?_, ?_⟩
  · cases r with
    | ok u => cases u; simp [uploadFileToS3]
    | error msg => simp [uploadFileToS3]
  · intro hg hf
    simp [uploadGraphObj, hg, hf]
  · unfold uploadBuildLogs
    split_ifs <;> rfl
  · unfold uploadGraphBuildReport
    cases rz <;> split_ifs <;> rfl

/-- Witness for C8: a failed `aws s3 cp` yields `false`, which is fatal
for the graph upload and harmless for the log and report uploads. -/
theorem uploadFailure_policy_witness :
    (uploadFileToS3 (.error "aws failed") = true
      ↔ (.error "aws failed" : Except String Unit) = .ok ()) ∧
    uploadGraphObj { sampleManifest with uploadGraph := true } (.error "aws failed")
        initialStatus = .error "Failed to upload graph!" ∧
    (uploadBuildLogs sampleManifest (.error "aws failed")).isOk = true ∧
    (uploadGraphBuildReport { sampleManifest with uploadGraphBuildReport := true }
        true (.ok ()) (.error "aws failed")).isOk = true :=
  ⟨(uploadFailure_policy { sampleManifest with uploadGraph := true }
      (.error "aws failed") (.ok ()) initialStatus true).1,
    (uploadFailure_policy { sampleManifest with uploadGraph := true }
      (.error "aws failed") (.ok ()) initialStatus true).2.1 rfl rfl,
    (uploadFailure_policy sampleManifest (.error "aws failed") (.ok ())
      initialStatus true).2.2.1,
    (uploadFailure_policy { sampleManifest with uploadGraphBuildReport := true }
      (.error "aws failed") (.ok ()) initialStatus true).2.2.2⟩

/-! ## C9: the trimmed latest-log fragment boundary -/

/-- C9 counterexample.  The claim says the fragment is non-empty
whenever the ring buffer holds at least two lines.  But the header strip
of line 423 can consume an entire line: with buffer
`["a", "00:00:(x)"]` (reachable by two pushes) the buffer holds two
lines yet the fragment is empty. -/
theorem latestFragment_nonempty_counterexample :
    ((CircBuf.mk []).push "a").push "00:00:(x)" = CircBuf.mk ["a", "00:00:(x)"] ∧
    (CircBuf.mk ["a", "00:00:(x)"]).size = 2 ∧
    latestBuildLogFragment (CircBuf.mk ["a", "00:00:(x)"]) = "" := by
  refine ⟨rfl, rfl, ?_⟩
  decide

lemma strTake_ne_empty (s : String) (n : ℕ) (hs : s ≠ "") (hn : n ≠ 0) :
    strTake s n ≠ "" := by
  intro h
  unfold strTake at h
  have hdata : s.toList.take n = [] := congrArg String.toList h
  rcases List.take_eq_nil_iff.mp hdata with h1 | h1
  · exact hn h1
  · apply hs
    cases s with
    | mk data =>
      have h2 : data = [] := by simpa [String.toList] using h1
      subst h2
      rfl

/-- C9 as amended.  The fragment is empty whenever the buffer holds at
most one line; with at least two lines it equals the most recent entry
with the timestamp-and-class header stripped and truncated to 60
characters — which is non-empty exactly when the strip leaves something,
and can be empty when the strip consumes the whole line. -/
theorem latestFragment_boundary (b : CircBuf) :
    (b.size ≤ 1 → latestBuildLogFragment b = "") ∧
    (1 < b.size → latestBuildLogFragment b
        = strTake (stripJavaLogHeader (b.get (b.size - 1))) 60) ∧
    (1 < b.size → stripJavaLogHeader (b.get (b.size - 1)) ≠ "" →
      latestBuildLogFragment b ≠ "") := by
  refine ⟨?_, ?_, ?_⟩
  · intro h
    unfold latestBuildLogFragment
    rw [if_neg (by omega)]
  · intro h
    unfold latestBuildLogFragment
    rw [if_pos h]
  · intro h hne
    unfold latestBuildLogFragment
    rw [if_pos h]
    exact strTake_ne_empty _ _ hne (by norm_num)

/-- Witness for the amended C9 at a concrete two-line buffer whose last
line keeps a message after the header strip. -/
theorem latestFragment_boundary_witness :
    (1 < (CircBuf.mk ["x", "12:34:56 INFO (Foo.java:1) Wrote graph"]).size ∧
      stripJavaLogHeader
        ((CircBuf.mk ["x", "12:34:56 INFO (Foo.java:1) Wrote graph"]).get
          ((CircBuf.mk ["x", "12:34:56 INFO (Foo.java:1) Wrote graph"]).size - 1))
        ≠ "") ∧
    latestBuildLogFragment (CircBuf.mk ["x", "12:34:56 INFO (Foo.java:1) Wrote graph"])
      ≠ "" :=
  ⟨⟨by decide, by decide⟩,
    (latestFragment_boundary
        (CircBuf.mk ["x", "12:34:56 INFO (Foo.java:1) Wrote graph"])).2.2
      (by decide) (by decide)⟩

/-! ## C10: a missing `s3UploadPath` suppresses the doomed runner-log
upload on the fail path -/

/-- C10.  When the manifest lacks an `s3UploadPath` while
`uploadOtpRunnerLogs` is set, `validateManifest` forces
`uploadOtpRunnerLogs` to `false` (lines 247-252), so the
`uploadOtpRunnerLogs` call made by `fail` performs no S3 upload attempt
— while the corresponding validation error is still accumulated and
reported through the single `fail` message. -/
theorem missingS3Path_disables_runnerLogUpload (m : Manifest)
    (hs3 : m.s3UploadPath = none) (hul : m.uploadOtpRunnerLogs = true) :
    (validatedManifest m).uploadOtpRunnerLogs = false ∧
    uploadOtpRunnerLogsAttemptsUpload (validatedManifest m) = false ∧
    s3UploadPathError "uploadOtpRunnerLogs" ∈ crossFieldErrors m ∧
    validateManifest [] m = .error (manifestErrorsMessage (crossFieldErrors m)) := by
  have hv : (validatedManifest m).uploadOtpRunnerLogs = false := by
    unfold validatedManifest
    rw [if_pos (by simp [hs3, hul])]
  have hmem : s3UploadPathError "uploadOtpRunnerLogs" ∈ crossFieldErrors m := by
    unfold crossFieldErrors
    apply List.mem_append_right
    rw [if_pos (by simp [hs3])]
    have hfil : (("uploadOtpRunnerLogs", true) : String × Bool)
        ∈ (uploadFlagEntries m).filter (fun e => e.2) := by
      refine List.mem_filter.mpr ⟨?_, rfl⟩
      simp [uploadFlagEntries, hul]
    exact List.mem_map_of_mem (fun e => s3UploadPathError e.1) hfil
  refine ⟨hv, hv, hmem, ?_⟩
  rw [validateManifest, if_neg (by simp)]
  dsimp only
  rw [if_pos (List.ne_nil_of_mem hmem)]

/-- Witness for C10 at a concrete manifest. -/
theorem missingS3Path_disables_runnerLogUpload_witness :
    (noPathLogsManifest.s3UploadPath = none ∧
      noPathLogsManifest.uploadOtpRunnerLogs = true) ∧
    ((validatedManifest noPathLogsManifest).uploadOtpRunnerLogs = false ∧
      uploadOtpRunnerLogsAttemptsUpload (validatedManifest noPathLogsManifest) = false ∧
      s3UploadPathError "uploadOtpRunnerLogs" ∈ crossFieldErrors noPathLogsManifest ∧
      validateManifest [] noPathLogsManifest
        = .error (manifestErrorsMessage (crossFieldErrors noPathLogsManifest))) :=
  ⟨⟨rfl, rfl⟩, missingS3Path_disables_runnerLogUpload noPathLogsManifest rfl rfl⟩

end OtpRunner
